import Mathlib

/-!
Verification development for the qwen3-tts-apple-silicon repository
(`src/cli.py` and `src/main.py`).  The Python code is shallowly embedded:
pure string manipulation becomes Lean functions on `String`/`List Char`;
filesystem interaction becomes explicit state passing over a small
filesystem model; the external synthesizer (`generate_audio`) is modelled
by a behaviour record describing what it did (raised / created files).
-/

namespace QwenTTS

/-! ### Python string primitives (ASCII fragment)

`pyIsSpace` is Python's whitespace class restricted to ASCII
(space, \t, \n, \v, \f, \r); `pyStrip` is `str.strip()`;
`pyLower` is `str.lower()` on ASCII. -/

def pyIsSpace (c : Char) : Bool := c = ' ' || (9 ≤ c.toNat && c.toNat ≤ 13)

def pyStripL (l : List Char) : List Char :=
  ((l.dropWhile pyIsSpace).reverse.dropWhile pyIsSpace).reverse

def pyStrip (s : String) : String := ⟨pyStripL s.data⟩

def pyLower (s : String) : String := ⟨s.data.map Char.toLower⟩

/-- Python's `\w` class (ASCII fragment): letters, digits, underscore. -/
def isWordChar (c : Char) : Bool := c.isAlphanum || c = '_'

/-- Characters kept by `re.sub(r"[^\w\s-]", "", ·)` in
`cli.py:66` and `main.py:97`: word characters, whitespace, hyphen. -/
def keepChar (c : Char) : Bool := isWordChar c || pyIsSpace c || c = '-'

/-- Terminal punctuation of the regex `(?<=[.!?])\s+` (cli.py:60). -/
def isPunct (c : Char) : Bool := c = '.' || c = '!' || c = '?'

/-- `os.path.join` for the relative-path shapes this program builds. -/
def pathJoin (a b : String) : String := a ++ "/" ++ b

/-- `str.startswith` over the character lists. -/
def strStartsWith (s pre : String) : Bool := pre.data.isPrefixOf s.data

/-- `str.endswith` over the character lists. -/
def strEndsWith (s suf : String) : Bool := suf.data.isSuffixOf s.data

/-! ### Sentence splitting (`split_into_chunks`, cli.py:53-61) -/

/-- Head-of-accumulator test: the character just before the scan position
is terminal punctuation (the regex lookbehind `(?<=[.!?])`). -/
def punctBefore (acc : List Char) : Bool :=
  match acc with
  | p :: _ => isPunct p
  | [] => false

/-- One pass of `re.split(r"(?<=[.!?])\s+", text)`: a split happens at a
whitespace character whose predecessor is `.`, `!` or `?`, and the greedy
`\s+` consumes the whole whitespace run.  `acc` holds the current segment
reversed; `skipping` is true while consuming the whitespace run of a match
(during which the next segment has not started, so no further split can
begin until a non-space character is seen). -/
def reSplitGo : Bool → List Char → List Char → List (List Char)
  | _, acc, [] => [acc.reverse]
  | true, acc, c :: rest =>
    if pyIsSpace c then reSplitGo true acc rest else reSplitGo false [c] rest
  | false, acc, c :: rest =>
    if pyIsSpace c && punctBefore acc then
      acc.reverse :: reSplitGo true [] rest
    else
      reSplitGo false (c :: acc) rest

def reSplit (l : List Char) : List (List Char) := reSplitGo false [] l

/-- `split_into_chunks` (cli.py:53-61):
`"\n".join(s.strip() for s in re.split(r"(?<=[.!?])\s+", text) if s.strip())`. -/
def split_into_chunks (text : String) : String :=
  ⟨List.intercalate ['\n'] (((reSplit text.data).map pyStripL).filter (· ≠ []))⟩

/-! ### Filename snippet (`make_filename`, cli.py:64-67; `save_audio_file`,
main.py:96-98 — the two sanitization expressions are character-identical,
with `FILENAME_MAX_LEN = 20` in main.py matching the literal `[:20]`). -/

def FILENAME_MAX_LEN : Nat := 20

/-- `re.sub(r"[^\w\s-]", "", text)[:20].strip().replace(" ", "_") or "audio"`. -/
def sanitizeSnippet (text : String) : String :=
  let cleaned := (text.data.filter keepChar).take FILENAME_MAX_LEN
  let underscored := (pyStripL cleaned).map (fun c => if c = ' ' then '_' else c)
  if underscored.isEmpty then "audio" else ⟨underscored⟩

/-- `make_filename` (cli.py:64-67), with the wall-clock timestamp passed in. -/
def make_filename (timestamp text : String) : String :=
  timestamp ++ "_" ++ sanitizeSnippet text ++ ".wav"

/-! ### Model locator (`get_smart_path`, cli.py:34-43 and main.py:77-89;
the two definitions are identical up to the `MODELS_DIR` constant, which
is passed here as a parameter). The directory tree is abstracted by an
existence predicate and a listing function. -/

structure DirFS where
  pathExists : String → Bool
  listdir : String → List String

def get_smart_path (fs : DirFS) (modelsDir folder_name : String) : String :=
  let full_path := pathJoin modelsDir folder_name
  if fs.pathExists full_path then
    let snapshots_dir := pathJoin full_path "snapshots"
    if fs.pathExists snapshots_dir then
      match (fs.listdir snapshots_dir).filter (fun f => !(strStartsWith f ".")) with
      | s :: _ => pathJoin snapshots_dir s
      | [] => full_path
    else full_path
  else "mlx-community/" ++ folder_name

/-! ### Input resolver (`resolve_text`, cli.py:46-50) -/

structure TextFS where
  isfile : String → Bool
  readFile : String → String

def resolve_text (fs : TextFS) (text_arg : String) : String :=
  if fs.isfile text_arg && strEndsWith text_arg ".txt" then
    pyStrip (fs.readFile text_arg)
  else text_arg

/-! ### Interactive input (`clean_path`, main.py:119-123;
`get_safe_input`, main.py:126-145) -/

/-- Python `str.replace("\\ ", " ")`: rewrite each non-overlapping
occurrence of backslash-space, scanning left to right. -/
def replaceBackslashSpace : List Char → List Char
  | '\\' :: ' ' :: rest => ' ' :: replaceBackslashSpace rest
  | c :: rest => c :: replaceBackslashSpace rest
  | [] => []

/-- `clean_path` (main.py:119-123): strip, remove one matching pair of
surrounding quotes, and unescape `\ ` to a space. -/
def clean_path (user_input : String) : String :=
  let path := pyStrip user_input
  let path :=
    if 1 < path.length ∧ (path.front = '\'' ∨ path.front = '"') ∧ path.back = path.front
    then (⟨path.data.drop 1 |>.dropLast⟩ : String) else path
  ⟨replaceBackslashSpace path.data⟩

/-- Environment of one `get_safe_input` call: whether a KeyboardInterrupt
occurs, what `input()` returns otherwise, which paths `os.path.exists`
reports, and the result of reading a file (`none` models an `IOError`). -/
structure InputEnv where
  interrupt : Bool
  entered : String
  pathExists : String → Bool
  readResult : String → Option String

/-- `get_safe_input` (main.py:126-145). Returns `none` where the Python
function returns `None`. -/
def get_safe_input (env : InputEnv) : Option String :=
  if env.interrupt then none
  else
    let raw := pyStrip env.entered
    if pyLower raw ∈ ["exit", "quit", "q"] then none
    else
      let clean_p := clean_path raw
      if env.pathExists clean_p && strEndsWith clean_p ".txt" then
        (env.readResult clean_p).map pyStrip
      else some raw

/-! ### Speaker selection (`SPEAKER_MAP`, main.py:46-51;
selection loop in `run_custom_session`, main.py:240-249) -/

def SPEAKER_MAP : List (String × List String) :=
  [("English", ["Ryan", "Aiden", "Ethan", "Chelsie", "Serena", "Vivian"]),
   ("Chinese", ["Vivian", "Serena", "Uncle_Fu", "Dylan", "Eric"]),
   ("Japanese", ["Ono_Anna"]),
   ("Korean", ["Sohee"])]

/-- The `for lang, names in SPEAKER_MAP.items()` loop of
`run_custom_session` (main.py:240-249): `speaker` starts as the default
and becomes `user_choice` at the first language list containing it. -/
def speakerLoop : List (String × List String) → String → String → String
  | [], _, speaker => speaker
  | (_, names) :: rest, user_choice, speaker =>
    if names.contains user_choice then user_choice
    else speakerLoop rest user_choice speaker

def select_speaker (user_choice : String) : String :=
  speakerLoop SPEAKER_MAP user_choice "Vivian"

/-! ### Filesystem model

A state of concrete directories and files (path with content), with the
operations this program performs: `os.makedirs`, `shutil.move`,
`shutil.rmtree`, `shutil.copy`, `os.remove`, `open(...).write`. -/

structure FSState where
  dirs : List String
  files : List (String × String)

def fsHasFile (fs : FSState) (p : String) : Bool :=
  fs.files.any (fun pc => pc.1 == p)

def fsHasDir (fs : FSState) (p : String) : Bool :=
  fs.dirs.contains p

/-- `os.path.exists`: a path that is a known file or directory. -/
def fsExistsPath (fs : FSState) (p : String) : Bool :=
  fsHasFile fs p || fsHasDir fs p

def fsGet (fs : FSState) (p : String) : Option String :=
  (fs.files.find? (fun pc => pc.1 == p)).map (fun pc => pc.2)

def addFile (fs : FSState) (p c : String) : FSState :=
  { fs with files := (p, c) :: fs.files.filter (fun pc => !(pc.1 == p)) }

def removeFile (fs : FSState) (p : String) : FSState :=
  { fs with files := fs.files.filter (fun pc => !(pc.1 == p)) }

def addDir (fs : FSState) (d : String) : FSState :=
  if fs.dirs.contains d then fs else { fs with dirs := d :: fs.dirs }

/-- `shutil.move src dest` (only invoked when `src` exists). -/
def moveFile (fs : FSState) (src dest : String) : FSState :=
  match fsGet fs src with
  | some c => addFile (removeFile fs src) dest c
  | none => fs

/-- `shutil.rmtree d`: removes the directory and everything under it. -/
def rmtree (fs : FSState) (d : String) : FSState :=
  { dirs := fs.dirs.filter (fun x => !(x == d) && !(strStartsWith x (d ++ "/"))),
    files := fs.files.filter (fun pc => !(strStartsWith pc.1 (d ++ "/"))) }

/-! ### External synthesizer behaviour

`generate_audio` is a black box; one call either raises or returns, and
may have created its `output_path` directory and written files into it
before doing either. -/

structure GenBehavior where
  raises : Bool
  createsDir : Bool
  outputs : List (String × String)

/-- Effect of one `generate_audio(..., output_path=tempDir, ...)` call on
the filesystem. -/
def applyGen (fs : FSState) (tempDir : String) (b : GenBehavior) : FSState :=
  if b.createsDir then
    b.outputs.foldl (fun s pc => addFile s (pathJoin tempDir pc.1) pc.2)
      (addDir fs tempDir)
  else fs

/-! ### CLI generation (`generate`, cli.py:70-147, from the point where the
output directory is created; model loading is outside the model, text is
the already-resolved text of line 83). -/

/-- Source-file location of cli.py:131-134: try `audio.wav`, then
`audio_000.wav`. -/
def cliLocate (fs : FSState) (tempDir : String) : Option String :=
  let source1 := pathJoin tempDir "audio.wav"
  let source := if fsHasFile fs source1 then source1
                else pathJoin tempDir "audio_000.wav"
  if fsHasFile fs source then some source else none

structure CliOutcome where
  fs : FSState
  raised : Bool
  exitedWithError : Bool
  errors : List String
  savedPath : Option String

/-- `generate` (cli.py:88-147): make the output directory, chunk the text,
call the synthesizer on a fresh temp directory, locate the produced file,
rename and move it, and remove the temp directory.  An exception from
`generate_audio` propagates (there is no handler in cli.py), so nothing
after the call runs. -/
def cliGenerate (pre : FSState) (b : GenBehavior) (tempDir outputDir : String)
    (filenameArg : Option String) (resolvedText timestamp : String) : CliOutcome :=
  let fs0 := addDir pre outputDir
  let text := split_into_chunks resolvedText
  let fs1 := applyGen fs0 tempDir b
  if b.raises then
    { fs := fs1, raised := true, exitedWithError := false, errors := [],
      savedPath := none }
  else
    match cliLocate fs1 tempDir with
    | none =>
      { fs := rmtree fs1 tempDir, raised := false, exitedWithError := true,
        errors := ["Error: generation produced no output."], savedPath := none }
    | some source =>
      let filename := match filenameArg with
        | some f => f
        | none => make_filename timestamp text
      let filename := if strEndsWith filename ".wav" then filename else filename ++ ".wav"
      let dest := pathJoin outputDir filename
      { fs := rmtree (moveFile fs1 source dest) tempDir, raised := false,
        exitedWithError := false, errors := [], savedPath := some dest }

/-! ### Interactive finalizer and loop body (`save_audio_file`,
main.py:92-116; loop body of `run_custom_session`, main.py:267-278 —
`run_design_session` and `run_clone_manager` share the same shape). -/

structure InterOutcome where
  fs : FSState
  errors : List String
  savedPath : Option String

/-- `save_audio_file` (main.py:92-116): makedirs the save path, build the
timestamp+snippet filename, move `audio_000.wav` out of the temp folder if
present (then best-effort `afplay`, which has no filesystem effect), and
remove the temp folder if it exists.  No error is ever printed. -/
def save_audio_file (fs : FSState) (temp_folder subfolder text_snippet timestamp
    baseOutputDir : String) : InterOutcome :=
  let save_path := pathJoin baseOutputDir subfolder
  let fs := addDir fs save_path
  let filename := timestamp ++ "_" ++ sanitizeSnippet text_snippet ++ ".wav"
  let final_path := pathJoin save_path filename
  let source_file := pathJoin temp_folder "audio_000.wav"
  let moved := fsHasFile fs source_file
  let fs := if moved then moveFile fs source_file final_path else fs
  let fs := if fsExistsPath fs temp_folder then rmtree fs temp_folder else fs
  { fs := fs, errors := [],
    savedPath := if moved then some final_path else none }

/-- One iteration of the interactive text loop (main.py:267-278): call the
synthesizer on a fresh temp directory inside `try`; on success run
`save_audio_file`; an exception is caught and printed, and nothing else
runs (in particular no cleanup). -/
def interIteration (pre : FSState) (b : GenBehavior) (tempDir subfolder text
    timestamp baseOutputDir : String) : InterOutcome :=
  let fs1 := applyGen pre tempDir b
  if b.raises then
    { fs := fs1, errors := ["Error: generation failed"], savedPath := none }
  else
    save_audio_file fs1 tempDir subfolder text timestamp baseOutputDir

/-! ### Voice enrollment (`convert_audio_if_needed`, main.py:148-174;
`enroll_new_voice`, main.py:184-222) -/

/-- `os.path.basename` for slash-separated paths. -/
def basename (p : String) : String :=
  ⟨(p.data.reverse.takeWhile (· ≠ '/')).reverse⟩

/-- `os.path.splitext` on a basename (no separators): split at the last
dot, provided a non-dot character precedes it; otherwise the extension is
empty. -/
def splitext (b : String) : String × String :=
  let rev := b.data.reverse
  let afterDot := rev.takeWhile (· ≠ '.')
  if afterDot.length = rev.length then (b, "")
  else
    let beforeRev := rev.drop (afterDot.length + 1)
    if beforeRev.any (· ≠ '.') then
      (⟨beforeRev.reverse⟩, ⟨'.' :: afterDot.reverse⟩)
    else (b, "")

/-- Externals of the enrollment flow: whether `wave.open` accepts a file
as a WAV with at least one channel, whether `ffmpeg` is installed and
succeeds, the content `ffmpeg` writes for a given input file, the
`int(time.time())` value, and the working directory. -/
structure EnrollEnv where
  validWav : String → Bool
  ffmpegOk : Bool
  convContent : String → String
  timeNow : Nat
  cwd : String

/-- `convert_audio_if_needed` (main.py:148-174): pass a valid WAV through
unchanged; otherwise transcode to a fresh `temp_convert_<t>.wav` via
ffmpeg.  Returns the updated filesystem and the path handed back
(`none` models returning `None`). -/
def convert_audio_if_needed (env : EnrollEnv) (fs : FSState) (input_path : String) :
    FSState × Option String :=
  if !(fsExistsPath fs input_path) then (fs, none)
  else
    let ext := (splitext (basename input_path)).2
    if pyLower ext == ".wav" && env.validWav input_path then (fs, some input_path)
    else
      let temp_wav := pathJoin env.cwd ("temp_convert_" ++ toString env.timeNow ++ ".wav")
      if env.ffmpegOk then
        (addFile fs temp_wav (env.convContent input_path), some temp_wav)
      else (fs, none)

/-- Name sanitization of `enroll_new_voice` (main.py:192):
`re.sub(r'[^\w\s-]', '', name).strip().replace(' ', '_')` (no length
truncation here, unlike the filename snippet). -/
def sanitizeVoiceName (name : String) : String :=
  ⟨(pyStripL (name.data.filter keepChar)).map (fun c => if c = ' ' then '_' else c)⟩

/-- `enroll_new_voice` (main.py:184-222): sanitize the name, clean the
dragged reference path, convert it if needed, copy the WAV and write the
transcript under the voices directory, and delete the intermediate
converted file when one was created. -/
def enroll_new_voice (env : EnrollEnv) (fs : FSState)
    (nameInput refInput transcriptInput : String) : FSState :=
  let name := pyStrip nameInput
  if name == "" then fs
  else
    let safe_name := sanitizeVoiceName name
    let raw_path := clean_path (pyStrip refInput)
    if 300 < raw_path.length ∨ raw_path.data.contains '\n' then fs
    else
      match convert_audio_if_needed env fs raw_path with
      | (fs1, none) => fs1
      | (fs1, some clean_wav_path) =>
        let voicesDir := pathJoin env.cwd "voices"
        let fs2 := if fsExistsPath fs1 voicesDir then fs1 else addDir fs1 voicesDir
        let target_wav := pathJoin voicesDir (safe_name ++ ".wav")
        let target_txt := pathJoin voicesDir (safe_name ++ ".txt")
        let fs3 := addFile fs2 target_wav ((fsGet fs2 clean_wav_path).getD "")
        let fs4 := addFile fs3 target_txt (pyStrip transcriptInput)
        if !(clean_wav_path == raw_path) && fsExistsPath fs4 clean_wav_path then
          removeFile fs4 clean_wav_path
        else fs4

/-! ## Helper lemmas -/

theorem dropWhile_eq_nil_of_all (p : Char → Bool) (l : List Char)
    (h : ∀ c ∈ l, p c = true) : l.dropWhile p = [] := by
  induction l with
  | nil => rfl
  | cons c rest ih =>
    simp only [List.dropWhile, h c (List.mem_cons_self c rest)]
    exact ih fun x hx => h x (List.mem_cons_of_mem c hx)

theorem pyStripL_all_space (l : List Char) (h : ∀ c ∈ l, pyIsSpace c = true) :
    pyStripL l = [] := by
  unfold pyStripL
  rw [dropWhile_eq_nil_of_all pyIsSpace l h]
  rfl

/-- If no terminal punctuation occurs, the splitter never splits. -/
theorem reSplitGo_no_punct (l : List Char) :
    ∀ acc : List Char, (∀ c ∈ l, isPunct c = false) →
    (∀ c ∈ acc, isPunct c = false) →
    reSplitGo false acc l = [acc.reverse ++ l] := by
  induction l with
  | nil => intro acc _ _; simp [reSplitGo]
  | cons c rest ih =>
    intro acc hl hacc
    have hcond : (pyIsSpace c && punctBefore acc) = false := by
      cases acc with
      | nil => simp [punctBefore]
      | cons p ps =>
        have : isPunct p = false := hacc p (List.mem_cons_self p ps)
        simp [punctBefore, this]
    have hrest : ∀ x ∈ rest, isPunct x = false := fun x hx =>
      hl x (List.mem_cons_of_mem c hx)
    have hc : isPunct c = false := hl c (List.mem_cons_self c rest)
    have hacc' : ∀ x ∈ c :: acc, isPunct x = false := by
      intro x hx
      rcases List.mem_cons.mp hx with h | h
      · exact h ▸ hc
      · exact hacc x h
    simp only [reSplitGo, hcond, Bool.false_eq_true, if_false,
      ih (c :: acc) hrest hacc']
    simp

/-! ## Claims -/

/-- C4 counterexample: the text `" a "` contains no terminal punctuation,
yet `split_into_chunks` returns `"a"`, not the text unchanged. -/
theorem C4_counterexample :
    ((" a " : String).data.all (fun c => !(isPunct c))) = true ∧
    split_into_chunks " a " = "a" ∧ (" a " : String) ≠ "a" :=
  ⟨by decide, by decide, by decide⟩

/-- C4 (amended): for every ASCII text containing no terminal punctuation
character (., !, ?), `split_into_chunks` returns the text as a single
segment with its leading/trailing whitespace stripped (the generator
applies `s.strip()` to the lone segment). -/
theorem C4_amended_ok (text : String)
    (_hascii : ∀ c ∈ text.data, c.toNat < 128)
    (hnp : ∀ c ∈ text.data, isPunct c = false) :
    split_into_chunks text = pyStrip text := by
  unfold split_into_chunks reSplit
  rw [reSplitGo_no_punct text.data [] hnp (by intro c h; cases h)]
  simp only [List.reverse_nil, List.nil_append, List.map_cons, List.map_nil]
  by_cases h : pyStripL text.data = []
  · simp [h, pyStrip, List.intercalate]
  · simp [h, pyStrip, List.intercalate]

/-- C4 witness. -/
theorem C4_witness : split_into_chunks " hi there " = pyStrip " hi there " :=
  C4_amended_ok " hi there " (by decide) (by decide)

/-- C3 counterexample: `"-"` consists only of non-word characters, yet the
snippet is `"-"`, not the fallback `"audio"` (the hyphen survives
`re.sub(r"[^\w\s-]", "", ·)`). -/
theorem C3_counterexample :
    isWordChar '-' = false ∧ sanitizeSnippet "-" = "-" ∧
    make_filename "12-00-00" "-" = "12-00-00_-.wav" ∧ ("-" : String) ≠ "audio" :=
  ⟨by decide, by decide, by decide, by decide⟩

/-- C3 (amended): for every ASCII text whose characters are all non-word
characters and not hyphens, the derived filename uses the fallback
snippet `"audio"`. -/
theorem C3_amended_ok (text ts : String)
    (_hascii : ∀ c ∈ text.data, c.toNat < 128)
    (hw : ∀ c ∈ text.data, isWordChar c = false)
    (hd : ∀ c ∈ text.data, c ≠ '-') :
    sanitizeSnippet text = "audio" ∧ make_filename ts text = ts ++ "_audio.wav" := by
  have hsnip : sanitizeSnippet text = "audio" := by
    simp only [sanitizeSnippet]
    have hall : ∀ c ∈ (text.data.filter keepChar).take FILENAME_MAX_LEN,
        pyIsSpace c = true := by
      intro c hc
      have hmem := List.take_subset FILENAME_MAX_LEN (text.data.filter keepChar) hc
      have ⟨hin, hkeep⟩ := List.mem_filter.mp hmem
      unfold keepChar at hkeep
      rcases Bool.or_eq_true_iff.mp hkeep with h | h
      · rcases Bool.or_eq_true_iff.mp h with h' | h'
        · exact absurd h' (by simp [hw c hin])
        · exact h'
      · exact absurd (by simpa using h) (hd c hin)
    rw [pyStripL_all_space _ hall]
    rfl
  refine ⟨hsnip, ?_⟩
  unfold make_filename
  rw [hsnip, String.append_assoc, String.append_assoc]
  rfl

/-- C3 witness. -/
theorem C3_witness :
    sanitizeSnippet "!?." = "audio" ∧
    make_filename "10-00-00" "!?." = "10-00-00" ++ "_audio.wav" :=
  C3_amended_ok "!?." "10-00-00" (by decide) (by decide) (by decide)

/-- C5: `get_smart_path` returns the remote identifier
`"mlx-community/<folder>"` when the local `models/<folder>` directory does
not exist, and the first non-hidden snapshot subfolder inside
`<folder>/snapshots` when the folder exists and the snapshots directory
holds at least one non-hidden entry. -/
theorem C5_ok (fs : DirFS) (modelsDir folder s : String) (rest : List String) :
    (fs.pathExists (pathJoin modelsDir folder) = false →
      get_smart_path fs modelsDir folder = "mlx-community/" ++ folder) ∧
    (fs.pathExists (pathJoin modelsDir folder) = true →
      fs.pathExists (pathJoin (pathJoin modelsDir folder) "snapshots") = true →
      (fs.listdir (pathJoin (pathJoin modelsDir folder) "snapshots")).filter
          (fun f => !(strStartsWith f ".")) = s :: rest →
      get_smart_path fs modelsDir folder =
        pathJoin (pathJoin (pathJoin modelsDir folder) "snapshots") s) := by
  constructor
  · intro h
    simp only [get_smart_path, h]
    rfl
  · intro h1 h2 h3
    simp only [get_smart_path, h1, h2, h3, if_true]

/-- C5 witness. -/
theorem C5_witness :
    get_smart_path ⟨fun _ => false, fun _ => []⟩ "models" "M" = "mlx-community/" ++ "M" ∧
    get_smart_path
        ⟨fun p => p == "models/M" || p == "models/M/snapshots",
         fun _ => [".hidden", "abc123", "def"]⟩ "models" "M" =
      pathJoin (pathJoin (pathJoin "models" "M") "snapshots") "abc123" :=
  ⟨(C5_ok ⟨fun _ => false, fun _ => []⟩ "models" "M" "x" []).1 (by decide),
   (C5_ok
      ⟨fun p => p == "models/M" || p == "models/M/snapshots",
       fun _ => [".hidden", "abc123", "def"]⟩ "models" "M" "abc123" ["def"]).2
     (by decide) (by decide) (by decide)⟩

/-- C6: `resolve_text` returns the stripped file contents for an existing
`.txt` path, and returns the argument verbatim for a non-existent path
lacking a `.txt` extension. -/
theorem C6_ok (fs : TextFS) (t : String) :
    (fs.isfile t = true → strEndsWith t ".txt" = true →
      resolve_text fs t = pyStrip (fs.readFile t)) ∧
    (fs.isfile t = false → resolve_text fs t = t) := by
  constructor
  · intro h1 h2
    simp only [resolve_text, h1, h2, Bool.and_self, if_true]
  · intro h1
    simp only [resolve_text, h1, Bool.false_and, Bool.false_eq_true, if_false]

/-- C6 witness. -/
theorem C6_witness :
    resolve_text ⟨fun p => p == "notes.txt", fun _ => " hi "⟩ "notes.txt" =
      pyStrip " hi " ∧
    resolve_text ⟨fun _ => false, fun _ => ""⟩ "hello" = "hello" :=
  ⟨(C6_ok ⟨fun p => p == "notes.txt", fun _ => " hi "⟩ "notes.txt").1
     (by decide) (by decide),
   (C6_ok ⟨fun _ => false, fun _ => ""⟩ "hello").2 (by decide)⟩

theorem speakerLoop_not_found (m : List (String × List String))
    (choice d : String) (h : ∀ p ∈ m, p.2.contains choice = false) :
    speakerLoop m choice d = d := by
  induction m with
  | nil => rfl
  | cons p rest ih =>
    obtain ⟨lang, names⟩ := p
    have hc := h (lang, names) (List.mem_cons_self _ rest)
    simp only [speakerLoop, hc, Bool.false_eq_true, if_false]
    exact ih fun q hq => h q (List.mem_cons_of_mem _ hq)

theorem speakerLoop_found (m : List (String × List String))
    (choice d : String) :
    (∃ p ∈ m, p.2.contains choice = true) → speakerLoop m choice d = choice := by
  induction m with
  | nil => rintro ⟨p, hp, -⟩; cases hp
  | cons p rest ih =>
    intro h
    obtain ⟨lang, names⟩ := p
    by_cases hc : names.contains choice = true
    · simp only [speakerLoop, hc, if_true]
    · have hc' : names.contains choice = false := by simpa using hc
      have h' : ∃ q ∈ rest, q.2.contains choice = true := by
        rcases h with ⟨q, hq, hqc⟩
        rcases List.mem_cons.mp hq with rfl | hq'
        · exact absurd hqc hc
        · exact ⟨q, hq', hqc⟩
      simp only [speakerLoop, hc', Bool.false_eq_true, if_false]
      exact ih h'

/-- C10: in the interactive custom-voice session, an entered speaker name
appearing in no language list of `SPEAKER_MAP` yields the default
`"Vivian"`, and a name appearing in some list is used verbatim. -/
theorem C10_ok (choice : String) :
    ((∀ p ∈ SPEAKER_MAP, p.2.contains choice = false) →
      select_speaker choice = "Vivian") ∧
    ((∃ p ∈ SPEAKER_MAP, p.2.contains choice = true) →
      select_speaker choice = choice) :=
  ⟨fun h => speakerLoop_not_found SPEAKER_MAP choice "Vivian" h,
   fun h => speakerLoop_found SPEAKER_MAP choice "Vivian" h⟩

/-- C10 witness. -/
theorem C10_witness :
    select_speaker "Bob" = "Vivian" ∧ select_speaker "Uncle_Fu" = "Uncle_Fu" :=
  ⟨(C10_ok "Bob").1 (by decide), (C10_ok "Uncle_Fu").2 (by decide)⟩

/-- C8 counterexample: an entered text naming an existing `.txt` file whose
read raises `IOError` makes `get_safe_input` return `None` (ending the
loop) although the text is none of exit/quit/q and no interrupt occurred
(the `interrupt` field of the environment literal is `false`). -/
theorem C8_counterexample :
    get_safe_input ⟨false, "notes.txt", fun p => p == "notes.txt", fun _ => none⟩ =
      none ∧
    pyLower (pyStrip "notes.txt") ∉ (["exit", "quit", "q"] : List String) :=
  ⟨by decide, by decide⟩

/-- C8 (amended): `get_safe_input` returns `None` exactly when a keyboard
interrupt occurs, the stripped input is `exit`, `quit` or `q`
(case-insensitively), or the input names an existing `.txt` file whose
read raises `IOError`; for every other input it returns a string. -/
theorem C8_amended_ok (env : InputEnv) :
    get_safe_input env = none ↔
      (env.interrupt = true ∨
       pyLower (pyStrip env.entered) ∈ (["exit", "quit", "q"] : List String) ∨
       (env.pathExists (clean_path (pyStrip env.entered)) = true ∧
        strEndsWith (clean_path (pyStrip env.entered)) ".txt" = true ∧
        env.readResult (clean_path (pyStrip env.entered)) = none)) := by
  simp only [get_safe_input]
  by_cases hI : env.interrupt = true
  · simp [hI]
  · simp only [hI, if_false, Bool.false_eq_true]
    by_cases hM : pyLower (pyStrip env.entered) ∈ (["exit", "quit", "q"] : List String)
    · simp [hM, hI]
    · simp only [hM, if_false]
      by_cases hE : env.pathExists (clean_path (pyStrip env.entered)) = true
      · by_cases hT : strEndsWith (clean_path (pyStrip env.entered)) ".txt" = true
        · cases hR : env.readResult (clean_path (pyStrip env.entered)) with
          | none => simp [hE, hT, hR, hI, hM]
          | some s => simp [hE, hT, hR, hI, hM]
        · simp [hE, hT, hI, hM]
      · simp [hE, hI, hM]

theorem addFile_dirs (fs : FSState) (p c : String) :
    (addFile fs p c).dirs = fs.dirs := rfl

theorem addDir_files (fs : FSState) (d : String) :
    (addDir fs d).files = fs.files := by
  unfold addDir; split <;> rfl

theorem addDir_hasFile (fs : FSState) (d q : String) :
    fsHasFile (addDir fs d) q = fsHasFile fs q := by
  unfold fsHasFile; rw [addDir_files]

theorem addDir_contains_self (fs : FSState) (d : String) :
    ((addDir fs d).dirs.contains d) = true := by
  unfold addDir
  by_cases h : fs.dirs.contains d = true
  · rw [if_pos h]; exact h
  · rw [if_neg h]
    simp [List.contains_cons]

theorem foldl_addFile_dirs (tempDir : String) (l : List (String × String)) :
    ∀ fs : FSState,
      (l.foldl (fun s pc => addFile s (pathJoin tempDir pc.1) pc.2) fs).dirs = fs.dirs := by
  induction l with
  | nil => intro fs; rfl
  | cons pc rest ih => intro fs; rw [List.foldl_cons, ih]; rfl

theorem applyGen_dirs_contains (fs : FSState) (tempDir : String) (b : GenBehavior)
    (h : b.createsDir = true) :
    ((applyGen fs tempDir b).dirs.contains tempDir) = true := by
  unfold applyGen
  rw [if_pos h, foldl_addFile_dirs]
  exact addDir_contains_self fs tempDir

theorem moveFile_dirs (fs : FSState) (src dest : String) :
    (moveFile fs src dest).dirs = fs.dirs := by
  unfold moveFile
  cases fsGet fs src <;> rfl

theorem contains_filter_not_self (l : List String) (d : String) :
    ((l.filter (fun x => !(x == d) && !(strStartsWith x (d ++ "/")))).contains d) =
      false := by
  induction l with
  | nil => rfl
  | cons x rest ih =>
    simp only [List.filter_cons]
    by_cases hx : (!(x == d) && !(strStartsWith x (d ++ "/"))) = true
    · rw [if_pos hx]
      have hxd : (x == d) = false := by
        have h1 := (Bool.and_eq_true _ _).mp hx |>.1
        simpa using h1
      have hne : ¬d = x := by
        intro h; subst h; simp at hxd
      simp [List.contains_cons, ih, hne]
    · rw [if_neg hx]
      exact ih

theorem rmtree_not_contains (fs : FSState) (d : String) :
    ((rmtree fs d).dirs.contains d) = false :=
  contains_filter_not_self fs.dirs d

theorem cleanup_step_not_contains (fsX : FSState) (temp : String) :
    (((if fsExistsPath fsX temp then rmtree fsX temp else fsX) : FSState).dirs.contains
      temp) = false := by
  by_cases hE : fsExistsPath fsX temp = true
  · rw [if_pos hE]; exact rmtree_not_contains _ _
  · rw [if_neg (by simp [hE])]
    have : fsHasDir fsX temp = false := by
      revert hE
      unfold fsExistsPath
      cases fsHasFile fsX temp <;> cases hD : fsHasDir fsX temp <;> simp
    exact this

theorem save_audio_file_temp_removed (fs : FSState) (temp subf text ts base : String) :
    (((save_audio_file fs temp subf text ts base).fs).dirs.contains temp) = false := by
  simp only [save_audio_file]
  exact cleanup_step_not_contains _ _

theorem save_audio_file_errors (fs : FSState) (temp subf text ts base : String) :
    (save_audio_file fs temp subf text ts base).errors = [] := rfl

theorem save_audio_file_missing (fs : FSState) (temp subf text ts base : String)
    (h : fsHasFile fs (pathJoin temp "audio_000.wav") = false) :
    (save_audio_file fs temp subf text ts base).savedPath = none := by
  simp only [save_audio_file, addDir_hasFile, h, Bool.false_eq_true, if_false]

/-- C1 counterexample: when `generate_audio` raises an exception after
creating the temporary directory, neither the CLI path (no handler, so the
cleanup code is never reached) nor the interactive path (the handler only
prints) removes the temporary directory. -/
theorem C1_counterexample :
    ((cliGenerate ⟨[], []⟩ ⟨true, true, []⟩ "temp_cli_7" "/abs/out" none "hi"
        "12-00-00").fs.dirs.contains "temp_cli_7") = true ∧
    ((interIteration ⟨[], []⟩ ⟨true, true, []⟩ "temp_7" "CustomVoice" "hi"
        "12-00-00" "outputs").fs.dirs.contains "temp_7") = true :=
  ⟨by decide, by decide⟩

/-- C1 (amended): in both CLI and interactive modes the per-invocation
temporary directory is removed whenever `generate_audio` returns (both on
the success path and on the no-output-file path), but when
`generate_audio` raises an exception no cleanup runs, and the temporary
directory remains whenever the call had created it. -/
theorem C1_amended_ok (pre : FSState) (b : GenBehavior)
    (tempDir outputDir subfolder text timestamp baseOutputDir : String)
    (fnArg : Option String) :
    (b.raises = false →
      ((cliGenerate pre b tempDir outputDir fnArg text timestamp).fs.dirs.contains
        tempDir) = false ∧
      ((interIteration pre b tempDir subfolder text timestamp
          baseOutputDir).fs.dirs.contains tempDir) = false) ∧
    (b.raises = true → b.createsDir = true →
      ((cliGenerate pre b tempDir outputDir fnArg text timestamp).fs.dirs.contains
        tempDir) = true ∧
      ((interIteration pre b tempDir subfolder text timestamp
          baseOutputDir).fs.dirs.contains tempDir) = true) := by
  constructor
  · intro hr
    constructor
    · simp only [cliGenerate, hr, Bool.false_eq_true, if_false]
      split
      · exact rmtree_not_contains _ _
      · exact rmtree_not_contains _ _
    · simp only [interIteration, hr, Bool.false_eq_true, if_false]
      exact save_audio_file_temp_removed _ _ _ _ _ _
  · intro hr hc
    constructor
    · simp only [cliGenerate, hr, if_true]
      exact applyGen_dirs_contains _ _ _ hc
    · simp only [interIteration, hr, if_true]
      exact applyGen_dirs_contains _ _ _ hc

/-- C1 witness. -/
theorem C1_witness :
    (((cliGenerate ⟨[], []⟩ ⟨false, true, [("audio.wav", "x")]⟩ "t1" "/o" none "hi"
        "12").fs.dirs.contains "t1") = false ∧
     ((interIteration ⟨[], []⟩ ⟨false, true, [("audio.wav", "x")]⟩ "t1" "CV" "hi"
        "12" "outputs").fs.dirs.contains "t1") = false) ∧
    (((cliGenerate ⟨[], []⟩ ⟨true, true, []⟩ "t2" "/o" none "hi"
        "12").fs.dirs.contains "t2") = true ∧
     ((interIteration ⟨[], []⟩ ⟨true, true, []⟩ "t2" "CV" "hi"
        "12" "outputs").fs.dirs.contains "t2") = true) :=
  ⟨(C1_amended_ok ⟨[], []⟩ ⟨false, true, [("audio.wav", "x")]⟩ "t1" "/o" "CV" "hi" "12"
      "outputs" none).1 rfl,
   (C1_amended_ok ⟨[], []⟩ ⟨true, true, []⟩ "t2" "/o" "CV" "hi" "12"
      "outputs" none).2 rfl rfl⟩

/-- C2 evaluation at the failing input: the CLI `speak` pipeline on
`"Hello. World!"` chunks the text to `"Hello.\nWorld!"`, and the derived
snippet keeps the newline (only spaces are replaced by underscores), so
the output filename is `12-00-00_Hello\nWorld.wav` — not the
`HH-MM-SS_Hello_World.wav` shape the claim states.  Exactly one `.wav`
file lands in the output directory and the temp directory is removed. -/
theorem C2_eval :
    (cliGenerate ⟨[], []⟩ ⟨false, true, [("audio.wav", "PCM")]⟩ "temp_cli_0"
        "/abs/out" none "Hello. World!" "12-00-00").savedPath =
      some "/abs/out/12-00-00_Hello\nWorld.wav" ∧
    ((cliGenerate ⟨[], []⟩ ⟨false, true, [("audio.wav", "PCM")]⟩ "temp_cli_0"
        "/abs/out" none "Hello. World!" "12-00-00").fs.files.filter
      (fun pc => strStartsWith pc.1 "/abs/out/" && strEndsWith pc.1 ".wav")) =
      [("/abs/out/12-00-00_Hello\nWorld.wav", "PCM")] ∧
    ((cliGenerate ⟨[], []⟩ ⟨false, true, [("audio.wav", "PCM")]⟩ "temp_cli_0"
        "/abs/out" none "Hello. World!" "12-00-00").fs.dirs.contains "temp_cli_0") =
      false ∧
    sanitizeSnippet (split_into_chunks "Hello. World!") = "Hello\nWorld" ∧
    ("Hello\nWorld" : String) ≠ "Hello_World" :=
  ⟨by decide, by decide, by decide, by decide, by decide⟩

/-- C7 counterexample: an interactive generation that produced no output
file (neither `audio.wav` nor `audio_000.wav` exists in the temp
directory) removes the temp directory but reports no error at all —
`save_audio_file` silently returns. -/
theorem C7_counterexample :
    (interIteration ⟨[], []⟩ ⟨false, true, []⟩ "temp_1" "CustomVoice" "hi"
        "12-00-00" "outputs").errors = [] ∧
    (interIteration ⟨[], []⟩ ⟨false, true, []⟩ "temp_1" "CustomVoice" "hi"
        "12-00-00" "outputs").savedPath = none ∧
    ((interIteration ⟨[], []⟩ ⟨false, true, []⟩ "temp_1" "CustomVoice" "hi"
        "12-00-00" "outputs").fs.dirs.contains "temp_1") = false ∧
    fsHasFile (applyGen ⟨[], []⟩ "temp_1" ⟨false, true, []⟩) "temp_1/audio.wav" =
      false ∧
    fsHasFile (applyGen ⟨[], []⟩ "temp_1" ⟨false, true, []⟩) "temp_1/audio_000.wav" =
      false :=
  ⟨by decide, by decide, by decide, by decide, by decide⟩

/-- C7 (amended): the CLI finalizer tries `audio.wav` then `audio_000.wav`
and, when neither candidate exists, reports a user-visible error, removes
the temp directory and exits with an error; the interactive finalizer
tries only `audio_000.wav` and, when it is absent, removes the temp
directory without reporting any error. -/
theorem C7_amended_ok (pre : FSState) (b : GenBehavior)
    (tempDir outputDir subfolder text timestamp baseOutputDir : String)
    (fnArg : Option String) :
    (b.raises = false →
      cliLocate (applyGen (addDir pre outputDir) tempDir b) tempDir = none →
      (cliGenerate pre b tempDir outputDir fnArg text timestamp).errors =
        ["Error: generation produced no output."] ∧
      (cliGenerate pre b tempDir outputDir fnArg text timestamp).exitedWithError =
        true ∧
      ((cliGenerate pre b tempDir outputDir fnArg text timestamp).fs.dirs.contains
        tempDir) = false) ∧
    (∀ fsX : FSState, fsHasFile fsX (pathJoin tempDir "audio.wav") = true →
      cliLocate fsX tempDir = some (pathJoin tempDir "audio.wav")) ∧
    (∀ fsX : FSState, fsHasFile fsX (pathJoin tempDir "audio.wav") = false →
      fsHasFile fsX (pathJoin tempDir "audio_000.wav") = true →
      cliLocate fsX tempDir = some (pathJoin tempDir "audio_000.wav")) ∧
    (b.raises = false →
      fsHasFile (applyGen pre tempDir b) (pathJoin tempDir "audio_000.wav") = false →
      (interIteration pre b tempDir subfolder text timestamp baseOutputDir).errors =
        [] ∧
      (interIteration pre b tempDir subfolder text timestamp
        baseOutputDir).savedPath = none ∧
      ((interIteration pre b tempDir subfolder text timestamp
          baseOutputDir).fs.dirs.contains tempDir) = false) := by
  refine ⟨?_, ?_, ?_, ?_⟩
  · intro hr hL
    simp only [cliGenerate, hr, Bool.false_eq_true, if_false, hL]
    exact ⟨trivial, trivial, rmtree_not_contains _ _⟩
  · intro fsX h
    simp only [cliLocate, h, if_true]
  · intro fsX h1 h2
    simp only [cliLocate, h1, Bool.false_eq_true, if_false, h2, if_true]
  · intro hr hm
    simp only [interIteration, hr, Bool.false_eq_true, if_false]
    exact ⟨save_audio_file_errors _ _ _ _ _ _,
           save_audio_file_missing _ _ _ _ _ _ hm,
           save_audio_file_temp_removed _ _ _ _ _ _⟩

/-- C7 witness. -/
theorem C7_witness :
    ((cliGenerate ⟨[], []⟩ ⟨false, true, []⟩ "t" "/o" none "hi" "12").errors =
      ["Error: generation produced no output."] ∧
     (cliGenerate ⟨[], []⟩ ⟨false, true, []⟩ "t" "/o" none "hi" "12").exitedWithError =
      true ∧
     ((cliGenerate ⟨[], []⟩ ⟨false, true, []⟩ "t" "/o" none "hi"
        "12").fs.dirs.contains "t") = false) ∧
    cliLocate ⟨[], [("t/audio.wav", "x")]⟩ "t" = some (pathJoin "t" "audio.wav") ∧
    cliLocate ⟨[], [("t/audio_000.wav", "x")]⟩ "t" =
      some (pathJoin "t" "audio_000.wav") ∧
    ((interIteration ⟨[], []⟩ ⟨false, true, []⟩ "t" "CV" "hi" "12"
        "outputs").errors = [] ∧
     (interIteration ⟨[], []⟩ ⟨false, true, []⟩ "t" "CV" "hi" "12"
        "outputs").savedPath = none ∧
     ((interIteration ⟨[], []⟩ ⟨false, true, []⟩ "t" "CV" "hi" "12"
        "outputs").fs.dirs.contains "t") = false) :=
  ⟨(C7_amended_ok ⟨[], []⟩ ⟨false, true, []⟩ "t" "/o" "CV" "hi" "12" "outputs"
      none).1 rfl (by decide),
   (C7_amended_ok ⟨[], []⟩ ⟨false, true, []⟩ "t" "/o" "CV" "hi" "12" "outputs"
      none).2.1 ⟨[], [("t/audio.wav", "x")]⟩ (by decide),
   (C7_amended_ok ⟨[], []⟩ ⟨false, true, []⟩ "t" "/o" "CV" "hi" "12" "outputs"
      none).2.2.1 ⟨[], [("t/audio_000.wav", "x")]⟩ (by decide) (by decide),
   (C7_amended_ok ⟨[], []⟩ ⟨false, true, []⟩ "t" "/o" "CV" "hi" "12" "outputs"
      none).2.2.2 rfl (by decide)⟩

/-- C9: enrolling a voice named `"Mom!"` with an existing `.mp3` reference
(with ffmpeg available) sanitizes the name to `"Mom"`, persists the
converted WAV at `voices/Mom.wav` and the typed transcript at
`voices/Mom.txt`, and removes the intermediate `temp_convert_<t>.wav`
file, leaving no converted temp file behind. -/
theorem C9_theorem :
    sanitizeVoiceName "Mom!" = "Mom" ∧
    fsGet (enroll_new_voice ⟨fun _ => false, true, fun p => "wav:" ++ p, 100, "."⟩
        ⟨[], [("ref.mp3", "mp3data")]⟩ "Mom!" "ref.mp3" "hello there")
      "./voices/Mom.wav" = some "wav:ref.mp3" ∧
    fsGet (enroll_new_voice ⟨fun _ => false, true, fun p => "wav:" ++ p, 100, "."⟩
        ⟨[], [("ref.mp3", "mp3data")]⟩ "Mom!" "ref.mp3" "hello there")
      "./voices/Mom.txt" = some "hello there" ∧
    fsExistsPath (enroll_new_voice ⟨fun _ => false, true, fun p => "wav:" ++ p, 100,
        "."⟩ ⟨[], [("ref.mp3", "mp3data")]⟩ "Mom!" "ref.mp3" "hello there")
      "./temp_convert_100.wav" = false ∧
    ((enroll_new_voice ⟨fun _ => false, true, fun p => "wav:" ++ p, 100, "."⟩
        ⟨[], [("ref.mp3", "mp3data")]⟩ "Mom!" "ref.mp3" "hello there").files.filter
      (fun pc => strStartsWith pc.1 "./temp_convert_")) = [] :=
  ⟨by decide, by decide, by decide, by decide, by decide⟩

end QwenTTS
